import Mathlib

/-!
Shallow embedding of the relay engine of `tcpproxy` (file `tcpproxy/tcpproxy.py`):
the per-route listener (`TCPProxyServer.serveConnection`), the per-connection
dispatch (`TCPProxyServer._handle_socket`), the directional byte pump
(`TCPProxyServer._forward`), the configuration load (`ProxyConfig.__init__` /
`getProxyAttrList`) and the fan-out over routes (`TCPProxy.serve`).

Modelling conventions:
* IPv4 address strings are `List Char` (Python `str`), ports and the backlog are
  `Int` (Python `int`).
* The shared running flag (`self._running`) is set `True` on entry to
  `serveConnection`, and the only other write anywhere in the program is
  `shutDown` setting it `False`; so along one execution it is `True` for some
  prefix of the flag checks and `False` afterwards.  A loop run is therefore
  parametrised by `k : Nat`, the number of flag checks that still see `True`
  (each check consumes one unit; `k` larger than the event trace models "never
  stopped").
* Socket I/O is modelled by explicit event traces: what `recv`, `accept`,
  `connect`, `bind` return or raise at each interaction.  An exhausted trace
  while the loop still wants to block models a thread parked in a blocking call.
* Side effects (log lines, `sleep`, thread starts) are collected in an action
  list; log messages are an inductive mirroring the exact format calls used by
  the source, carrying the values interpolated into them.
-/

/-- The 4-element attribute list describing one route, as documented in
`TCPProxyServer.set`: index 0 = bind address, 1 = listen port,
2 = destination address, 3 = destination port. -/
structure AttrList where
  bindAddress : List Char
  listenPort : Int
  destAddress : List Char
  destPort : Int
deriving DecidableEq, Repr

/-- Python `s.find("/")`: index of the first `'/'`, `-1` when absent. -/
def findSlash : List Char → Int
  | [] => -1
  | x :: xs =>
      if x = '/' then 0
      else if findSlash xs < 0 then -1 else findSlash xs + 1

/-- Python `s.split("/")[0]`: the characters before the first `'/'`
(the whole string when no `'/'` occurs). -/
def beforeSlash : List Char → List Char
  | [] => []
  | x :: xs => if x = '/' then [] else x :: beforeSlash xs

/-- The address normalisation performed by `TCPProxyServer.set` on both the
bind address and the destination address:
`if addr.find("/") > 0: addr = addr.split("/")[0]`. -/
def stripSubnet (s : List Char) : List Char :=
  if 0 < findSlash s then beforeSlash s else s

/-- The instance state written by `TCPProxyServer.set` (the `_uio` collaborator
object is omitted; every other field assigned by `set` is present). -/
structure TCPProxyServerState where
  attrList : AttrList
  bindAddress : List Char
  listenPort : Int
  destAddress : List Char
  destPort : Int
  running : Bool
  backLog : Int
deriving DecidableEq, Repr

/-- Default of the `backLog` parameter of `TCPProxyServer.set`. -/
def defaultBackLog : Int := 5

/-- `TCPProxyServer.set(uio, attrList, backLog)`: stores the attribute list,
derives the bind/destination addresses (stripping a `/mask` suffix when the
first `'/'` sits at a positive index), the two ports, `running = False` and the
backlog. -/
def TCPProxyServer.set (attr : AttrList) (backLog : Int) : TCPProxyServerState :=
  { attrList := attr
    bindAddress := stripSubnet attr.bindAddress
    listenPort := attr.listenPort
    destAddress := stripSubnet attr.destAddress
    destPort := attr.destPort
    running := false
    backLog := backLog }

/-- `TCPProxyServer.shutDown`: `self._running = False` and nothing else. -/
def TCPProxyServer.shutDown (s : TCPProxyServerState) : TCPProxyServerState :=
  { s with running := false }

/-- Log levels of the `UIO` collaborator calls used by the engine
(`debug`, `info`, `error`/`errorException`). -/
inductive LogLevel
  | debug
  | info
  | error
deriving DecidableEq, Repr

/-- The log messages emitted by the engine, one constructor per format call in
the source, carrying the interpolated values. -/
inductive Msg
  /-- "Started server: Listen on TCP/IP port b:lp and forward to d:dp" -/
  | startedServer (bindAddress : List Char) (listenPort : Int)
      (destAddress : List Char) (destPort : Int)
  /-- "Shutdown server listening on b:lp" -/
  | shutdownServer (bindAddress : List Char) (listenPort : Int)
  /-- "Connected b:lp to d:dp" -/
  | connected (bindAddress : List Char) (listenPort : Int)
      (destAddress : List Char) (destPort : Int)
  /-- "Disconnected" -/
  | disconnected
  /-- "Forwarding a0:a1 to a2:a3" (raw attribute list values) -/
  | forwarding (a0 : List Char) (a1 : Int) (a2 : List Char) (a3 : Int)
  /-- `uio.errorException()`: the exception trace at error level -/
  | exceptionTrace
deriving DecidableEq, Repr

/-- Observable side effects of the engine, in program order. -/
inductive SAction
  | log (lvl : LogLevel) (m : Msg)
  | sleepMs (ms : Nat)
  /-- `dock_socket.listen(backLog)` -/
  | listenCall (backLog : Int)
  /-- the two relay threads started by `_handle_socket` -/
  | spawnRelays
  /-- `tcpProxyServer.start()` in `TCPProxy.serve` -/
  | spawnListener (st : TCPProxyServerState)
deriving DecidableEq, Repr

/- ### Auxiliary lemmas about the address normalisation -/

theorem findSlash_of_not_mem (s : List Char) (h : ('/' : Char) ∉ s) :
    findSlash s = -1 := by
  induction s with
  | nil => rfl
  | cons x xs ih =>
      have hx : ¬ x = '/' := fun hc => h (hc ▸ List.mem_cons_self x xs)
      have hxs : ('/' : Char) ∉ xs := fun hc => h (List.mem_cons_of_mem x hc)
      simp only [findSlash, if_neg hx, ih hxs]
      norm_num

theorem findSlash_append (a m : List Char) (h : ('/' : Char) ∉ a) :
    findSlash (a ++ '/' :: m) = (a.length : Int) := by
  induction a with
  | nil => simp [findSlash]
  | cons x xs ih =>
      have hx : ¬ x = '/' := fun hc => h (hc ▸ List.mem_cons_self x xs)
      have hxs : ('/' : Char) ∉ xs := fun hc => h (List.mem_cons_of_mem x hc)
      have hrec := ih hxs
      simp only [List.cons_append, findSlash, if_neg hx, List.append_eq, hrec]
      have : ¬ ((xs.length : Int) < 0) := by omega
      simp only [if_neg this, List.length_cons]
      push_cast
      ring

theorem beforeSlash_append (a m : List Char) (h : ('/' : Char) ∉ a) :
    beforeSlash (a ++ '/' :: m) = a := by
  induction a with
  | nil => simp [beforeSlash]
  | cons x xs ih =>
      have hx : ¬ x = '/' := fun hc => h (hc ▸ List.mem_cons_self x xs)
      have hxs : ('/' : Char) ∉ xs := fun hc => h (List.mem_cons_of_mem x hc)
      simp only [List.cons_append, beforeSlash, if_neg hx, List.append_eq, ih hxs]

theorem stripSubnet_append (a m : List Char) (ha : a ≠ []) (h : ('/' : Char) ∉ a) :
    stripSubnet (a ++ '/' :: m) = a := by
  have hlen : 0 < a.length := List.length_pos.mpr ha
  have hpos : (0 : Int) < (a.length : Int) := by exact_mod_cast hlen
  simp only [stripSubnet, findSlash_append a m h, if_pos hpos, beforeSlash_append a m h]

theorem stripSubnet_of_not_mem (s : List Char) (h : ('/' : Char) ∉ s) :
    stripSubnet s = s := by
  have : ¬ ((0 : Int) < findSlash s) := by
    rw [findSlash_of_not_mem s h]; norm_num
  simp only [stripSubnet, if_neg this]

/- ### The directional byte pump `TCPProxyServer._forward` -/

/-- Default of the `rxBufferSize` parameter of `TCPProxyServer._forward`. -/
def rxBufferSize : Nat := 65536

/-- One interaction of the pump loop with its source/destination sockets:
either `source.recv` returns (at most `rxBufferSize` of the `avail` bytes;
`sendOk` says whether the `destination.sendall` for this chunk, if attempted,
succeeds), or `source.recv` raises. -/
inductive RecvEvent
  | recv (avail : List Nat) (sendOk : Bool)
  | recvErr
deriving DecidableEq, Repr

/-- How the (unguarded) pump loop body of `_forward` ends. -/
inductive BodyExit
  /-- the `while self._running` check saw `False` and the loop exited -/
  | flagFalse
  /-- `recv` or `sendall` raised; the exception escapes the loop -/
  | exn
  /-- the thread is parked in a blocking `recv` (event trace exhausted) -/
  | blocked
deriving DecidableEq, Repr

/-- The `try`-block of `_forward`:
`while self._running: data = source.recv(rxBufferSize); if data: destination.sendall(data)`.
`b` is `rxBufferSize`, `k` the number of flag checks that still see `True`.
Returns the chunks passed to `sendall` (in order) and how the loop ended. -/
def forwardBody (b : Nat) : Nat → List RecvEvent → List (List Nat) × BodyExit
  | 0, _ => ([], .flagFalse)
  | _ + 1, [] => ([], .blocked)
  | _ + 1, .recvErr :: _ => ([], .exn)
  | k + 1, .recv avail sendOk :: es =>
      let data := avail.take b
      if data = [] then forwardBody b k es
      else if sendOk then
        let r := forwardBody b k es
        (data :: r.1, r.2)
      else ([], .exn)

/-- Whether `_forward` has returned to its caller, or its thread is still
parked in a blocking call. -/
inductive PumpExit
  | returned
  | blocked
deriving DecidableEq, Repr

/-- `TCPProxyServer._forward(source, destination, rxBufferSize)`: the loop body
wrapped in `try ... except: self._info("Disconnected")`.  Returns the chunks
written, the actions performed, and whether the function returned. -/
def forward (b k : Nat) (es : List RecvEvent) :
    List (List Nat) × List SAction × PumpExit :=
  let r := forwardBody b k es
  match r.2 with
  | .exn => (r.1, [SAction.log .info .disconnected], .returned)
  | .flagFalse => (r.1, [], .returned)
  | .blocked => (r.1, [], .blocked)

/-- The relay thread target as started by `_handle_socket`: `_forward` with the
`rxBufferSize` parameter left at its default. -/
def relayPump (k : Nat) (es : List RecvEvent) :
    List (List Nat) × List SAction × PumpExit :=
  forward rxBufferSize k es

/- ### The listener `TCPProxyServer.serveConnection` -/

/-- What one iteration of the inner accept loop encounters:
`accept` returns a client (after which `_handle_socket`'s `connect` to the
destination succeeds or raises), or `accept` itself raises. -/
inductive AcceptStep
  | conn (connectOk : Bool)
  | acceptErr
deriving DecidableEq, Repr

/-- How a run of the accept loops ends. -/
inductive InnerExit
  /-- a `while self._running` check saw `False` -/
  | flagFalse
  /-- `accept` or `connect` raised; the exception escapes both loops -/
  | exn
  /-- the thread is parked in a blocking `accept` (event trace exhausted) -/
  | blocked
deriving DecidableEq, Repr

/-- The inner `while self._running:` accept loop of `serveConnection`, together
with the body of `_handle_socket` it dispatches to:
`client_socket = dock_socket.accept()[0]; server_socket = socket(...);`
`server_socket.connect(...); start threadA; start threadB; info("Connected ...")`.
Returns the actions performed, the remaining flag budget, the remaining event
trace and the exit kind. -/
def innerLoop (st : TCPProxyServerState) :
    Nat → List AcceptStep → List SAction × Nat × List AcceptStep × InnerExit
  | 0, steps => ([], 0, steps, .flagFalse)
  | k + 1, [] => ([], k, [], .blocked)
  | k + 1, .acceptErr :: rest => ([], k, rest, .exn)
  | k + 1, .conn ok :: rest =>
      if ok then
        let r := innerLoop st k rest
        (SAction.spawnRelays
            :: SAction.log .info
                (.connected st.bindAddress st.listenPort st.destAddress st.destPort)
            :: r.1,
         r.2)
      else ([], k, rest, .exn)

/-- The flag budget never grows across a run of the inner accept loop. -/
theorem innerLoop_budget_le (st : TCPProxyServerState) :
    ∀ (k : Nat) (steps : List AcceptStep), (innerLoop st k steps).2.1 ≤ k
  | 0, _ => Nat.le_refl 0
  | k + 1, [] => Nat.le_succ k
  | k + 1, .acceptErr :: _ => Nat.le_succ k
  | k + 1, .conn ok :: rest => by
      cases ok with
      | false => simp only [innerLoop, Bool.false_eq_true, if_neg]; exact Nat.le_succ k
      | true =>
          simp only [innerLoop, if_pos]
          exact Nat.le_succ_of_le (innerLoop_budget_le st k rest)

/-- The outer `while self._running:` loop of `serveConnection`:
`dock_socket.listen(self._backLog)` then the inner accept loop; when the inner
loop exits because the flag went down, control returns to the outer check. -/
def outerLoop (st : TCPProxyServerState) (k : Nat) (steps : List AcceptStep) :
    List SAction × InnerExit :=
  match k with
  | 0 => ([], .flagFalse)
  | k0 + 1 =>
      match h : innerLoop st k0 steps with
      | (acts, k2, rest, .flagFalse) =>
          let r := outerLoop st k2 rest
          (SAction.listenCall st.backLog :: acts ++ r.1, r.2)
      | (acts, _, _, .exn) => (SAction.listenCall st.backLog :: acts, .exn)
      | (acts, _, _, .blocked) => (SAction.listenCall st.backLog :: acts, .blocked)
termination_by k
decreasing_by
  have hle := innerLoop_budget_le st k0 steps
  rw [h] at hle
  exact Nat.lt_succ_of_le hle

/-- Outcome of `dock_socket.socket()/setsockopt/bind`, the statements of
`serveConnection` that precede the accept loops. -/
inductive BindResult
  | ok
  | err
deriving DecidableEq, Repr

/-- Whether `serveConnection` has returned (ending the listener thread), or its
thread is still parked in a blocking call. -/
inductive ServeExit
  | returned
  | blocked
deriving DecidableEq, Repr

/-- `TCPProxyServer.serveConnection`: sets `running = True`, logs the start
line, then
`try: try: <socket/bind>; while running: listen; while running: accept/dispatch`
`except: errorException(); sleep(0.25)`
`finally: debug("Shutdown server ...")`,
after which the method returns.  `bind` is the outcome of the bind sequence,
`k` the number of flag checks seeing `True`, `steps` the accept-loop event
trace. -/
def serveConnection (st : TCPProxyServerState) (bind : BindResult) (k : Nat)
    (steps : List AcceptStep) : List SAction × ServeExit :=
  let startLog := SAction.log .debug
      (.startedServer st.bindAddress st.listenPort st.destAddress st.destPort)
  let shutLog := SAction.log .debug (.shutdownServer st.bindAddress st.listenPort)
  match bind with
  | .err =>
      ([startLog, SAction.log .error .exceptionTrace, SAction.sleepMs 250, shutLog],
       .returned)
  | .ok =>
      match outerLoop st k steps with
      | (acts, .flagFalse) => (startLog :: acts ++ [shutLog], .returned)
      | (acts, .exn) =>
          (startLog :: acts
              ++ [SAction.log .error .exceptionTrace, SAction.sleepMs 250, shutLog],
           .returned)
      | (acts, .blocked) => (startLog :: acts, .blocked)

/-- `TCPProxyServer.run`: the thread entry point calls `serveConnection`
exactly once; when `serveConnection` returns, the listener thread ends. -/
def TCPProxyServer.run (st : TCPProxyServerState) (bind : BindResult) (k : Nat)
    (steps : List AcceptStep) : List SAction × ServeExit :=
  serveConnection st bind k steps

/- ### `ProxyConfig` and `TCPProxy.serve` -/

/-- `ProxyConfig.__init__`: `self._singleProxyList = getDict(CONFIG_FILE)` with
`except: self._singleProxyList = []`.  `loaded = none` models `getDict` raising
(missing or unparsable configuration file). -/
def ProxyConfig.loadList (loaded : Option (List AttrList)) : List AttrList :=
  match loaded with
  | some l => l
  | none => []

/-- `ProxyConfig.getProxyAttrList`: returns `self._singleProxyList`. -/
def ProxyConfig.getProxyAttrList (singleProxyList : List AttrList) : List AttrList :=
  singleProxyList

/-- `TCPProxy.serve`: for each attribute list, in order, logs
`"Forwarding a0:a1 to a2:a3"` (the raw attribute values), builds a
`TCPProxyServer`, calls `set` with the default backlog and starts its thread;
then returns.  Returns the actions performed and the listener states started,
in list order. -/
def TCPProxy.serve : List AttrList → List SAction × List TCPProxyServerState
  | [] => ([], [])
  | a :: rest =>
      let st := TCPProxyServer.set a defaultBackLog
      let r := TCPProxy.serve rest
      (SAction.log .info (.forwarding a.bindAddress a.listenPort a.destAddress a.destPort)
          :: SAction.spawnListener st :: r.1,
       st :: r.2)

/- ### Auxiliary lemmas about the pump -/

theorem take_eq_self_of_length_le {α : Type} :
    ∀ (l : List α) (n : Nat), l.length ≤ n → l.take n = l
  | [], _, _ => by simp
  | _ :: _, 0, h => by simp at h
  | x :: xs, n + 1, h => by
      simp only [List.take_succ_cons, List.cons.injEq, true_and]
      exact take_eq_self_of_length_le xs n (Nat.le_of_succ_le_succ h)


/-- One step of the pump on a successful read whose `sendall` succeeds:
an empty chunk is skipped, a non-empty chunk is recorded then the loop
continues. -/
theorem forwardBody_step_ok (b k : Nat) (avail : List Nat) (es : List RecvEvent) :
    forwardBody b (k + 1) (RecvEvent.recv avail true :: es)
      = if avail.take b = [] then forwardBody b k es
        else (avail.take b :: (forwardBody b k es).1, (forwardBody b k es).2) := by
  by_cases hemp : avail.take b = []
  · simp [forwardBody, hemp]
  · simp [forwardBody, hemp]

/-- On a trace of error-free reads that the flag budget covers, the chunks the
pump hands to `sendall` are exactly the non-empty chunks `recv` returned, in
order. -/
theorem forwardBody_clean_writes (b : Nat) :
    ∀ (datas : List (List Nat)) (k : Nat), datas.length ≤ k →
      (∀ d ∈ datas, d.length ≤ b) →
      (forwardBody b k (datas.map (fun d => RecvEvent.recv d true))).1
        = datas.filter (fun d => !decide (d = [])) := by
  intro datas
  induction datas with
  | nil =>
      intro k _ _
      cases k with
      | zero => rfl
      | succ k0 => rfl
  | cons d ds ih =>
      intro k hk hb
      cases k with
      | zero => simp at hk
      | succ k0 =>
          have hd : d.take b = d :=
            take_eq_self_of_length_le d b (hb d (List.mem_cons_self d ds))
          have hds : ∀ x ∈ ds, x.length ≤ b :=
            fun x hx => hb x (List.mem_cons_of_mem d hx)
          have hk0 : ds.length ≤ k0 := by simpa using hk
          rw [List.map_cons, forwardBody_step_ok, hd]
          by_cases hemp : d = []
          · rw [if_pos hemp, ih k0 hk0 hds, hemp, List.filter_cons]
            simp
          · rw [if_neg hemp]
            show d :: (forwardBody b k0 (ds.map (fun x => RecvEvent.recv x true))).1
                = (d :: ds).filter (fun x => !decide (x = []))
            rw [ih k0 hk0 hds, List.filter_cons]
            have hp : (!decide (d = [])) = true := by simpa using hemp
            rw [hp]
            simp

/-- Every chunk the pump hands to `sendall` has at most `b` bytes (`recv` is
asked for at most `b` bytes). -/
theorem forwardBody_chunk_le (b : Nat) :
    ∀ (k : Nat) (es : List RecvEvent), ∀ w ∈ (forwardBody b k es).1, w.length ≤ b
  | 0, es, w, hw => by simp [forwardBody] at hw
  | _ + 1, [], w, hw => by simp [forwardBody] at hw
  | _ + 1, .recvErr :: _, w, hw => by simp [forwardBody] at hw
  | k + 1, .recv avail sendOk :: rest, w, hw => by
      cases sendOk with
      | false =>
          by_cases hemp : avail.take b = []
          · rw [show forwardBody b (k + 1) (RecvEvent.recv avail false :: rest)
                  = forwardBody b k rest by simp [forwardBody, hemp]] at hw
            exact forwardBody_chunk_le b k rest w hw
          · rw [show forwardBody b (k + 1) (RecvEvent.recv avail false :: rest)
                  = ([], BodyExit.exn) by simp [forwardBody, hemp]] at hw
            simp at hw
      | true =>
          rw [forwardBody_step_ok] at hw
          by_cases hemp : avail.take b = []
          · rw [if_pos hemp] at hw
            exact forwardBody_chunk_le b k rest w hw
          · rw [if_neg hemp] at hw
            rcases List.mem_cons.mp hw with h | h
            · subst h
              simp only [List.length_take]
              exact Nat.min_le_left b avail.length
            · exact forwardBody_chunk_le b k rest w h

/- ### Claim theorems -/

/-- Claim C5: for every Route, a subnet-mask suffix (`'/'` followed by a mask
size, after a non-empty slash-free address) on the bind address is stripped by
`set` before the address is used to bind, a suffix on the destination address
is likewise stripped before it is used to connect, and addresses without a
suffix are stored unchanged. -/
theorem set_strips_subnet_suffix :
    (∀ (a m d : List Char) (lp dp bl : Int), a ≠ [] → ('/' : Char) ∉ a →
        (TCPProxyServer.set ⟨a ++ '/' :: m, lp, d, dp⟩ bl).bindAddress = a)
    ∧ (∀ (c a m : List Char) (lp dp bl : Int), a ≠ [] → ('/' : Char) ∉ a →
        (TCPProxyServer.set ⟨c, lp, a ++ '/' :: m, dp⟩ bl).destAddress = a)
    ∧ (∀ (a d : List Char) (lp dp bl : Int), ('/' : Char) ∉ a →
        (TCPProxyServer.set ⟨a, lp, d, dp⟩ bl).bindAddress = a)
    ∧ (∀ (c a : List Char) (lp dp bl : Int), ('/' : Char) ∉ a →
        (TCPProxyServer.set ⟨c, lp, a, dp⟩ bl).destAddress = a) := by
  refine ⟨?_, ?_, ?_, ?_⟩
  · intro a m d lp dp bl ha h
    exact stripSubnet_append a m ha h
  · intro c a m lp dp bl ha h
    exact stripSubnet_append a m ha h
  · intro a d lp dp bl h
    exact stripSubnet_of_not_mem a h
  · intro c a lp dp bl h
    exact stripSubnet_of_not_mem a h

/-- Witness for C5 on the concrete route
`("192.168.0.7/24", 9000, "10.0.0.1/8", 9001)`. -/
theorem set_strips_subnet_suffix_witness :
    (TCPProxyServer.set ⟨"192.168.0.7".toList ++ '/' :: "24".toList, 9000,
        "10.0.0.1".toList ++ '/' :: "8".toList, 9001⟩ defaultBackLog).bindAddress
      = "192.168.0.7".toList
    ∧ (TCPProxyServer.set ⟨"192.168.0.7".toList ++ '/' :: "24".toList, 9000,
        "10.0.0.1".toList ++ '/' :: "8".toList, 9001⟩ defaultBackLog).destAddress
      = "10.0.0.1".toList
    ∧ (TCPProxyServer.set ⟨"0.0.0.0".toList, 9000, "10.0.0.1".toList, 9001⟩
        defaultBackLog).bindAddress = "0.0.0.0".toList :=
  ⟨set_strips_subnet_suffix.1 "192.168.0.7".toList "24".toList
      ("10.0.0.1".toList ++ '/' :: "8".toList) 9000 9001 defaultBackLog
      (by decide) (by decide),
   set_strips_subnet_suffix.2.1 ("192.168.0.7".toList ++ '/' :: "24".toList)
      "10.0.0.1".toList "8".toList 9000 9001 defaultBackLog
      (by decide) (by decide),
   set_strips_subnet_suffix.2.2.1 "0.0.0.0".toList "10.0.0.1".toList 9000 9001
      defaultBackLog (by decide)⟩

/-- Claim C8: `shutDown` modifies only the running flag; the bind address,
listen port, destination address, destination port, backlog and the stored
attribute list are unchanged. -/
theorem shutDown_frame (s : TCPProxyServerState) :
    (TCPProxyServer.shutDown s).running = false
    ∧ (TCPProxyServer.shutDown s).attrList = s.attrList
    ∧ (TCPProxyServer.shutDown s).bindAddress = s.bindAddress
    ∧ (TCPProxyServer.shutDown s).listenPort = s.listenPort
    ∧ (TCPProxyServer.shutDown s).destAddress = s.destAddress
    ∧ (TCPProxyServer.shutDown s).destPort = s.destPort
    ∧ (TCPProxyServer.shutDown s).backLog = s.backLog :=
  ⟨rfl, rfl, rfl, rfl, rfl, rfl, rfl⟩

/-- Claim C6: after `shutDown` the running flag is false; the accept loop checks
the flag only at loop re-entry: with the flag down at the check, the inner and
outer loops exit at once, accepting nothing and leaving pending clients
untouched; an accept already in progress when the flag goes down still returns
and that one connection is still dispatched before the next check exits the
loop; and `shutDown` itself only flips the flag (it does not touch any other
listener state, so relays of open connections are not forcibly terminated). -/
theorem shutDown_stops_accept_loop :
    (∀ s, (TCPProxyServer.shutDown s).running = false)
    ∧ (∀ (st : TCPProxyServerState) (steps : List AcceptStep),
        innerLoop st 0 steps = ([], 0, steps, InnerExit.flagFalse))
    ∧ (∀ (st : TCPProxyServerState) (steps : List AcceptStep),
        outerLoop st 0 steps = ([], InnerExit.flagFalse))
    ∧ (∀ (st : TCPProxyServerState) (steps : List AcceptStep),
        innerLoop st 1 (AcceptStep.conn true :: steps)
          = ([SAction.spawnRelays,
              SAction.log .info
                (.connected st.bindAddress st.listenPort st.destAddress st.destPort)],
             0, steps, InnerExit.flagFalse))
    ∧ (∀ s, (TCPProxyServer.shutDown s).attrList = s.attrList
        ∧ (TCPProxyServer.shutDown s).bindAddress = s.bindAddress
        ∧ (TCPProxyServer.shutDown s).destAddress = s.destAddress
        ∧ (TCPProxyServer.shutDown s).backLog = s.backLog) := by
  refine ⟨fun s => rfl, fun st steps => rfl, fun st steps => ?_, fun st steps => rfl,
    fun s => ⟨rfl, rfl, rfl, rfl⟩⟩
  rw [outerLoop]

/-- Claim C7: `serve(routes)` processes the route list in order, and for every
route logs the forwarding mapping then starts exactly one listener (built by
`set` with the default backlog) as its own thread; it returns (it is a total
function of the route list) with all `N = routes.length` listeners started. -/
theorem serve_starts_one_listener_per_route (routes : List AttrList) :
    (TCPProxy.serve routes).2 = routes.map (fun a => TCPProxyServer.set a defaultBackLog)
    ∧ (TCPProxy.serve routes).2.length = routes.length
    ∧ (TCPProxy.serve routes).1
        = routes.flatMap (fun a =>
            [SAction.log .info (.forwarding a.bindAddress a.listenPort a.destAddress a.destPort),
             SAction.spawnListener (TCPProxyServer.set a defaultBackLog)]) := by
  refine ⟨?_, ?_, ?_⟩
  · induction routes with
    | nil => rfl
    | cons a rest ih => simp only [TCPProxy.serve, List.map_cons, List.cons.injEq, true_and]; exact ih
  · induction routes with
    | nil => rfl
    | cons a rest ih =>
        simp only [TCPProxy.serve, List.length_cons, Nat.succ.injEq]
        exact ih
  · induction routes with
    | nil => rfl
    | cons a rest ih =>
        simp only [TCPProxy.serve, List.flatMap_cons, List.cons_append, List.cons.injEq, true_and]
        simpa using ih

/-- Claim C9: when the persistent configuration file is missing or cannot be
parsed (`getDict` raises), `ProxyConfig.__init__` does not raise and the route
list defaults to `[]`; `getProxyAttrList` returns that empty list; and `serve`
on it performs no action and starts zero listeners. -/
theorem missing_config_serves_nothing :
    ProxyConfig.loadList none = []
    ∧ ProxyConfig.getProxyAttrList (ProxyConfig.loadList none) = []
    ∧ TCPProxy.serve (ProxyConfig.getProxyAttrList (ProxyConfig.loadList none)) = ([], []) :=
  ⟨rfl, rfl, rfl⟩

/-- Claim C3: for every sequence of byte chunks delivered by error-free reads
from the source socket (each at most the buffer size, within the flag budget),
the pump writes exactly those bytes, in the same order, unmodified: the chunks
written are the non-empty reads themselves, and hence the concatenation of the
bytes written equals the concatenation of the non-empty reads. -/
theorem relay_preserves_bytes (b k : Nat) (datas : List (List Nat))
    (hk : datas.length ≤ k) (hb : ∀ d ∈ datas, d.length ≤ b) :
    (forwardBody b k (datas.map (fun d => RecvEvent.recv d true))).1
        = datas.filter (fun d => !decide (d = []))
    ∧ ((forwardBody b k (datas.map (fun d => RecvEvent.recv d true))).1).flatten
        = (datas.filter (fun d => !decide (d = []))).flatten := by
  have h := forwardBody_clean_writes b datas k hk hb
  exact ⟨h, by rw [h]⟩

/-- Witness for C3 on the concrete read sequence `[[1,2],[],[3]]`. -/
theorem relay_preserves_bytes_witness :
    ([[1, 2], [], [3]] : List (List Nat)).length ≤ 3
    ∧ (∀ d ∈ ([[1, 2], [], [3]] : List (List Nat)), d.length ≤ rxBufferSize)
    ∧ (forwardBody rxBufferSize 3
          (([[1, 2], [], [3]] : List (List Nat)).map (fun d => RecvEvent.recv d true))).1
        = ([[1, 2], [], [3]] : List (List Nat)).filter (fun d => !decide (d = [])) :=
  ⟨by decide, by decide,
   (relay_preserves_bytes rxBufferSize 3 [[1, 2], [], [3]] (by decide) (by decide)).1⟩

/-- Claim C4: the pump loop runs while the running flag is true; the relay
threads run `_forward` with the default buffer size 65536; each iteration reads
up to the buffer size from the source (every written chunk is at most that
long); a read that returned bytes has all of them written; a zero-length read
skips forwarding and loops again (it is not treated as EOF); the loop ends when
the flag goes down or when `recv`/`sendall` raises, and a raise is logged at
info level as "Disconnected", not as an error. -/
theorem pump_loop_shape :
    rxBufferSize = 65536
    ∧ (∀ (k : Nat) (es : List RecvEvent), relayPump k es = forward 65536 k es)
    ∧ (∀ (b : Nat) (es : List RecvEvent), forwardBody b 0 es = ([], BodyExit.flagFalse))
    ∧ (∀ (b k : Nat) (avail : List Nat) (ok : Bool) (es : List RecvEvent),
        avail.take b = [] →
        forwardBody b (k + 1) (RecvEvent.recv avail ok :: es) = forwardBody b k es)
    ∧ (∀ (b k : Nat) (avail : List Nat) (es : List RecvEvent),
        avail.take b ≠ [] →
        forwardBody b (k + 1) (RecvEvent.recv avail true :: es)
          = (avail.take b :: (forwardBody b k es).1, (forwardBody b k es).2))
    ∧ (∀ (b k : Nat) (avail : List Nat) (es : List RecvEvent),
        avail.take b ≠ [] →
        forwardBody b (k + 1) (RecvEvent.recv avail false :: es) = ([], BodyExit.exn))
    ∧ (∀ (b k : Nat) (es : List RecvEvent),
        forwardBody b (k + 1) (RecvEvent.recvErr :: es) = ([], BodyExit.exn))
    ∧ (∀ (b k : Nat) (es : List RecvEvent), ∀ w ∈ (forwardBody b k es).1, w.length ≤ b)
    ∧ (∀ (b k : Nat) (es : List RecvEvent),
        (forwardBody b k es).2 = BodyExit.exn →
        forward b k es
          = ((forwardBody b k es).1,
             [SAction.log LogLevel.info Msg.disconnected], PumpExit.returned)) := by
  refine ⟨rfl, fun k es => rfl, fun b es => rfl, ?_, ?_, ?_, fun b k es => rfl,
    forwardBody_chunk_le, ?_⟩
  · intro b k avail ok es h
    cases ok with
    | true => rw [forwardBody_step_ok, if_pos h]
    | false => simp [forwardBody, h]
  · intro b k avail es h
    rw [forwardBody_step_ok, if_neg h]
  · intro b k avail es h
    simp [forwardBody, h]
  · intro b k es h
    simp only [forward]
    rw [h]

/-- Witness for C4 at concrete inputs: an empty read loops on, a one-byte read
is written whole, a read error ends the loop and is logged at info level. -/
theorem pump_loop_shape_witness :
    forwardBody 65536 (0 + 1) [RecvEvent.recv [] true] = forwardBody 65536 0 []
    ∧ forwardBody 65536 (0 + 1) [RecvEvent.recv [7] true]
        = (([7] : List Nat).take 65536 :: (forwardBody 65536 0 []).1,
           (forwardBody 65536 0 []).2)
    ∧ forward 65536 1 [RecvEvent.recvErr]
        = ((forwardBody 65536 1 [RecvEvent.recvErr]).1,
           [SAction.log LogLevel.info Msg.disconnected], PumpExit.returned) :=
  ⟨pump_loop_shape.2.2.2.1 65536 0 [] true [] (by decide),
   pump_loop_shape.2.2.2.2.1 65536 0 [7] [] (by decide),
   pump_loop_shape.2.2.2.2.2.2.2.2 65536 1 [RecvEvent.recvErr] (by decide)⟩

/-- Claim C10: the pump never propagates an exception to its caller: whenever
the unguarded loop body raises, the handler logs "Disconnected" at info level
and `_forward` returns normally; in every run that is not still blocked in a
read, `_forward` returns normally. -/
theorem pump_never_propagates (b k : Nat) (es : List RecvEvent) :
    ((forwardBody b k es).2 = BodyExit.exn →
        (forward b k es).2.2 = PumpExit.returned
        ∧ (forward b k es).2.1 = [SAction.log LogLevel.info Msg.disconnected])
    ∧ ((forwardBody b k es).2 ≠ BodyExit.blocked →
        (forward b k es).2.2 = PumpExit.returned) := by
  constructor
  · intro h
    have he : forward b k es
        = ((forwardBody b k es).1,
           [SAction.log LogLevel.info Msg.disconnected], PumpExit.returned) := by
      simp only [forward]
      rw [h]
    rw [he]
    exact ⟨rfl, rfl⟩
  · intro h
    cases hc : (forwardBody b k es).2 with
    | flagFalse =>
        have he : forward b k es
            = ((forwardBody b k es).1, [], PumpExit.returned) := by
          simp only [forward]
          rw [hc]
        rw [he]
    | exn =>
        have he : forward b k es
            = ((forwardBody b k es).1,
               [SAction.log LogLevel.info Msg.disconnected], PumpExit.returned) := by
          simp only [forward]
          rw [hc]
        rw [he]
    | blocked => exact absurd hc h

/-- Witness for C10: a successful read followed by a read error; the pump
returns normally with the info-level "Disconnected" log. -/
theorem pump_never_propagates_witness :
    (forwardBody 65536 2 [RecvEvent.recv [1] true, RecvEvent.recvErr]).2 = BodyExit.exn
    ∧ (forward 65536 2 [RecvEvent.recv [1] true, RecvEvent.recvErr]).2.2 = PumpExit.returned
    ∧ (forward 65536 2 [RecvEvent.recv [1] true, RecvEvent.recvErr]).2.1
        = [SAction.log LogLevel.info Msg.disconnected] :=
  ⟨by decide,
   ((pump_never_propagates 65536 2 [RecvEvent.recv [1] true, RecvEvent.recvErr]).1
      (by decide)).1,
   ((pump_never_propagates 65536 2 [RecvEvent.recv [1] true, RecvEvent.recvErr]).1
      (by decide)).2⟩

/- ### The listener runs decided by claims C1 and C2 -/

/-- The concrete route of the spec scenario:
bind `0.0.0.0`, listen 9000, destination `127.0.0.1:9001`. -/
def st0 : TCPProxyServerState :=
  TCPProxyServer.set ⟨"0.0.0.0".toList, 9000, "127.0.0.1".toList, 9001⟩ defaultBackLog

/-- Claim C1, evaluated at the failing input: the first accepted client's
outbound connect raises while the flag is still up and a second serviceable
client is pending.  The exception propagates out of both accept loops and is
caught and logged by `serveConnection`'s outer handler — not by any
per-connection dispatch — after which the thread sleeps 250 ms and
`serveConnection` returns: the listener thread ends, no relay pair is ever
started, and the pending client is never accepted or serviced, contrary to the
claim that the accept loop keeps running. -/
theorem connect_failure_ends_listener :
    serveConnection st0 BindResult.ok 5 [AcceptStep.conn false, AcceptStep.conn true]
      = ([SAction.log .debug
            (.startedServer st0.bindAddress st0.listenPort st0.destAddress st0.destPort),
          SAction.listenCall st0.backLog,
          SAction.log .error .exceptionTrace,
          SAction.sleepMs 250,
          SAction.log .debug (.shutdownServer st0.bindAddress st0.listenPort)],
         ServeExit.returned)
    ∧ SAction.spawnRelays
        ∉ (serveConnection st0 BindResult.ok 5
            [AcceptStep.conn false, AcceptStep.conn true]).1 := by
  have houter : outerLoop st0 5 [AcceptStep.conn false, AcceptStep.conn true]
      = ([SAction.listenCall st0.backLog], InnerExit.exn) := by
    rw [outerLoop.eq_def]
    simp [innerLoop]
  constructor
  · simp only [serveConnection, houter]
    rfl
  · simp only [serveConnection, houter]
    decide

/-- Claim C2, evaluated at the failing input: `accept` raises once while the
flag is still up and a serviceable client is pending.  The listener logs the
error and sleeps 250 ms as claimed, but then `serveConnection` returns (its
thread ends): the socket is never rebound, `listen` is never called again, and
the pending client is never serviced — the bind/accept sequence is not
re-entered. -/
theorem accept_error_ends_listener :
    serveConnection st0 BindResult.ok 5 [AcceptStep.acceptErr, AcceptStep.conn true]
      = ([SAction.log .debug
            (.startedServer st0.bindAddress st0.listenPort st0.destAddress st0.destPort),
          SAction.listenCall st0.backLog,
          SAction.log .error .exceptionTrace,
          SAction.sleepMs 250,
          SAction.log .debug (.shutdownServer st0.bindAddress st0.listenPort)],
         ServeExit.returned)
    ∧ (serveConnection st0 BindResult.ok 5
          [AcceptStep.acceptErr, AcceptStep.conn true]).1.count
        (SAction.listenCall st0.backLog) = 1
    ∧ SAction.spawnRelays
        ∉ (serveConnection st0 BindResult.ok 5
            [AcceptStep.acceptErr, AcceptStep.conn true]).1 := by
  have houter : outerLoop st0 5 [AcceptStep.acceptErr, AcceptStep.conn true]
      = ([SAction.listenCall st0.backLog], InnerExit.exn) := by
    rw [outerLoop.eq_def]
    simp [innerLoop]
  refine ⟨?_, ?_, ?_⟩
  · simp only [serveConnection, houter]
    rfl
  · simp only [serveConnection, houter]
    decide
  · simp only [serveConnection, houter]
    decide
